import Mathlib

/-!
Shallow embedding of the TacticalMesh mesh-routing core
(`src/agent/mesh/routing.py`) and the local store-and-forward buffer
(`src/agent/buffer.py`), with theorems about route expiry, route
selection, the relay engine (TTL, circuit breaker, acknowledgements),
route discovery responses, the reliability invariant, and the buffer cap.

Modelling conventions:
- Wall-clock instants (`datetime.utcnow()`) are rationals counting seconds;
  every operation that reads the clock takes `now : ℚ` explicitly.
- Python `float` becomes `ℚ` (the values handled here are small decimal
  literals and ratios of small integers, where binary floats and rationals
  order identically).
- Python dicts become association lists over `String` keys; mutation of a
  shared `RoutePath` object is rendered by updating the route table at the
  index the reference points at.
- Datagram transmission (`_send_to_peer` / `socket.sendto`) is modelled by
  returning the list of sent datagrams; a send oracle
  `sendOk : String × Nat → Bool` says whether `sendto` to a given address
  succeeds or raises.
-/

namespace TacticalMesh

/-- Python dict lookup `d.get(k)` on an association list (first binding wins). -/
def alookup {β : Type} (k : String) : List (String × β) → Option β
  | [] => none
  | p :: rest => if p.1 = k then some p.2 else alookup k rest

/-- Python dict assignment `d[k] = v`: overwrite the first binding of `k`,
or append a new binding. -/
def aset {β : Type} (k : String) (v : β) : List (String × β) → List (String × β)
  | [] => [(k, v)]
  | p :: rest => if p.1 = k then (k, v) :: rest else p :: aset k v rest

/-- Apply `f` to the value bound to `k` (in-place mutation of `d[k]`). -/
def amap {β : Type} (k : String) (f : β → β) : List (String × β) → List (String × β)
  | [] => []
  | p :: rest => if p.1 = k then (p.1, f p.2) :: rest else p :: amap k f rest

/-- Python `del d[k]` / `d.pop(k, None)` (keys are unique by construction). -/
def aremove {β : Type} (k : String) (l : List (String × β)) : List (String × β) :=
  l.filter fun p => p.1 ≠ k

/-- Update the element at position `i`, leaving the rest unchanged. This
renders a Python mutation of a list element through an aliased reference. -/
def modifyNthRoute {β : Type} (f : β → β) : Nat → List β → List β
  | _, [] => []
  | 0, r :: rs => f r :: rs
  | n + 1, r :: rs => r :: modifyNthRoute f n rs

/-- `RoutePath` dataclass of `routing.py` (lines 48-94): a discovered path to a
destination. `next_hop_addr` is the `(address, port)` pair. -/
structure RoutePath where
  target : String
  next_hop : String
  next_hop_addr : String × Nat
  total_hops : Nat
  estimated_rtt_ms : ℚ
  last_updated : ℚ
  reliability : ℚ := 1
  success_count : Nat := 0
  failure_count : Nat := 0
deriving DecidableEq

/-- `RoutePath.is_expired` (routing.py lines 74-77). The source compares the
age of `last_updated` against a hard-coded `timedelta(seconds=60)`; the
configured `route_cache_ttl` is not consulted here. -/
def is_expired (now : ℚ) (r : RoutePath) : Bool :=
  decide (now - r.last_updated > 60)

/-- `RoutePath._update_reliability` (lines 90-94): recompute the success
ratio when at least one attempt was recorded. -/
def update_reliability (r : RoutePath) : RoutePath :=
  if 0 < r.success_count + r.failure_count then
    {r with reliability :=
      (r.success_count : ℚ) / ((r.success_count : ℚ) + (r.failure_count : ℚ))}
  else r

/-- `RoutePath.record_success` (lines 79-83): bump the success count,
recompute reliability, refresh `last_updated`. -/
def record_success (now : ℚ) (r : RoutePath) : RoutePath :=
  let r1 := update_reliability {r with success_count := r.success_count + 1}
  {r1 with last_updated := now}

/-- `RoutePath.record_failure` (lines 85-88): bump the failure count and
recompute reliability (`last_updated` is not refreshed). -/
def record_failure (r : RoutePath) : RoutePath :=
  update_reliability {r with failure_count := r.failure_count + 1}

/-- `RelayMessage` dataclass (lines 97-132). The payload is an uninterpreted
key/value map. -/
structure RelayMessage where
  message_id : String
  msg_type : String
  origin_node_id : String
  destination : String
  hop_count : Nat
  max_hops : Nat
  payload : List (String × String)
  path_trace : List String
  timestamp : String
deriving DecidableEq

/-- `RelayMessage.increment_hop` (lines 134-143): increment `hop_count`,
append the node to `path_trace`, and report whether the message may still
travel (`hop_count <= max_hops` after the increment). The mutation happens
unconditionally, even when the returned flag is `false`. -/
def increment_hop (node_id : String) (m : RelayMessage) : RelayMessage × Bool :=
  let m1 := {m with hop_count := m.hop_count + 1, path_trace := m.path_trace ++ [node_id]}
  (m1, decide (m1.hop_count ≤ m1.max_hops))

/-- Payload of a datagram handed to `_send_to_peer`. The relay engine sends
`MSG_RELAY_DATA (0x06)` frames; `relayAck` stands for the `MSG_RELAY_ACK
(0x07)` frame layout `message_id + 0x00 + success:u8`. -/
inductive WirePayload where
  | relayData (message : RelayMessage)
  | relayAck (message_id : String) (success : Bool)
deriving DecidableEq

/-- A datagram passed to `_send_to_peer(data, address, port)`. -/
structure Datagram where
  addr : String × Nat
  payload : WirePayload
deriving DecidableEq

/-- The `MeshRouter.metrics` dict (lines 193-199). -/
structure Metrics where
  routes_discovered : Nat := 0
  messages_relayed : Nat := 0
  successful_deliveries : Nat := 0
  failed_relays : Nat := 0
  avg_hop_count : ℚ := 0
deriving DecidableEq

/-- State of a `MeshRouter` (lines 163-208). `peers` models
`peering.peers`, keeping for each known peer node id its `rtt_ms` field
(`Option ℚ`, `None` when no round trip has been measured) — the only
`PeerInfo` field the routing code reads. `hop_counts` is `_hop_counts`. -/
structure MeshRouter where
  node_id : String
  route_cache_ttl : ℚ := 60
  max_hops : Nat := 5
  peers : List (String × Option ℚ) := []
  route_table : List (String × List RoutePath) := []
  pending_requests : List (String × ℚ) := []
  relay_cache : List (String × RelayMessage) := []
  metrics : Metrics := {}
  hop_counts : List Nat := []
deriving DecidableEq

/-- Bump the `failed_relays` metric by one. -/
def bump_failed (router : MeshRouter) : MeshRouter :=
  {router with metrics := {router.metrics with failed_relays := router.metrics.failed_relays + 1}}

/-- The sort key of `select_best_route` and `relay_message`:
`(r.total_hops, r.estimated_rtt_ms, -r.reliability)` compared
lexicographically, as a total preorder (the Python tuple order under which
`list.sort` sorts ascending). -/
def routeKeyLe (a b : RoutePath) : Prop :=
  a.total_hops < b.total_hops ∨
    (a.total_hops = b.total_hops ∧
      (a.estimated_rtt_ms < b.estimated_rtt_ms ∨
        (a.estimated_rtt_ms = b.estimated_rtt_ms ∧ b.reliability ≤ a.reliability)))

instance routeKeyLe.decRel : DecidableRel routeKeyLe := fun a b =>
  decidable_of_iff
    (a.total_hops < b.total_hops ∨
      (a.total_hops = b.total_hops ∧
        (a.estimated_rtt_ms < b.estimated_rtt_ms ∨
          (a.estimated_rtt_ms = b.estimated_rtt_ms ∧ b.reliability ≤ a.reliability))))
    Iff.rfl

/-- The same key order lifted to index-tagged routes (the tag records which
position of `route_table[destination]` the Python object reference denotes). -/
def routeIdxLe (a b : Nat × RoutePath) : Prop := routeKeyLe a.2 b.2

instance routeIdxLe.decRel : DecidableRel routeIdxLe := fun a b =>
  routeKeyLe.decRel a.2 b.2

/-- `MeshRouter.has_route_to` (lines 410-417): any non-expired entry. -/
def has_route_to (now : ℚ) (router : MeshRouter) (destination : String) : Bool :=
  match alookup destination router.route_table with
  | none => false
  | some rs => !(rs.filter fun r => !is_expired now r).isEmpty

/-- `MeshRouter.select_best_route` (lines 419-447): filter expired routes,
stable-sort by `(total_hops, estimated_rtt_ms, -reliability)`, return the
first (or `None`). -/
def select_best_route (now : ℚ) (router : MeshRouter) (destination : String) :
    Option RoutePath :=
  match alookup destination router.route_table with
  | none => none
  | some rs => (List.insertionSort routeKeyLe (rs.filter fun r => !is_expired now r)).head?

/-- `MeshRouter.get_all_routes` (lines 449-454), tagged with the position of each
route in `route_table[destination]` so that later in-place mutations of
the aliased objects can be rendered. -/
def indexed_valid_routes (now : ℚ) (router : MeshRouter) (destination : String) :
    List (Nat × RoutePath) :=
  ((alookup destination router.route_table).getD []).enum.filter
    fun p => !is_expired now p.2

/-- The sorted snapshot `all_routes.sort(key=...)` of `relay_message`
(line 498), stable on the index-tagged routes. -/
def sorted_indexed (now : ℚ) (router : MeshRouter) (destination : String) :
    List (Nat × RoutePath) :=
  List.insertionSort routeIdxLe (indexed_valid_routes now router destination)

/-- The circuit-breaker viability test of `relay_message` (lines 501-504):
`r.reliability >= 0.2 or r.failure_count < 3`. -/
def viable_route (r : RoutePath) : Bool :=
  decide ((1 : ℚ) / 5 ≤ r.reliability) || decide (r.failure_count < 3)

/-- Mutate the route object at position `i` of `route_table[dest]`. -/
def modify_route_at (dest : String) (i : Nat) (f : RoutePath → RoutePath)
    (router : MeshRouter) : MeshRouter :=
  {router with route_table := amap dest (modifyNthRoute f i) router.route_table}

/-- `MeshRouter._update_avg_hop_count` (lines 727-733): keep the last 100
samples and store their mean. -/
def update_avg_hop_count (router : MeshRouter) : MeshRouter :=
  if router.hop_counts.isEmpty then router
  else
    let samples :=
      if 100 < router.hop_counts.length then
        router.hop_counts.drop (router.hop_counts.length - 100)
      else router.hop_counts
    { router with
      hop_counts := samples,
      metrics := {router.metrics with avg_hop_count :=
        ((samples.map fun n => (n : ℚ)).sum) / (samples.length : ℚ)} }

/-- The retry loop of `relay_message` (lines 521-564). Walk the candidate
list; stop when `attempts >= max_retries + 1`; skip a `next_hop` already
tried; otherwise record the peer as tried, count the attempt and send. A
successful `sendto` records a success on the route, bumps the relayed
counter and the hop-count samples, and returns the single sent datagram; a
raising `sendto` records a failure on the route and the walk continues. -/
def relay_attempts (sendOk : String × Nat → Bool) (now : ℚ) (dest : String)
    (message : RelayMessage) (maxAttempts : Nat) :
    List (Nat × RoutePath) → List String → Nat → MeshRouter →
      MeshRouter × List Datagram × Bool
  | [], _, _, router => (router, [], false)
  | p :: rest, tried, attempts, router =>
    if maxAttempts ≤ attempts then (router, [], false)
    else if p.2.next_hop ∈ tried then
      relay_attempts sendOk now dest message maxAttempts rest tried attempts router
    else if sendOk p.2.next_hop_addr then
      let router1 := modify_route_at dest p.1 (record_success now) router
      let router2 := {router1 with
        metrics := {router1.metrics with
          messages_relayed := router1.metrics.messages_relayed + 1},
        hop_counts := router1.hop_counts ++ [message.hop_count]}
      (update_avg_hop_count router2, [⟨p.2.next_hop_addr, .relayData message⟩], true)
    else
      relay_attempts sendOk now dest message maxAttempts rest
        (tried ++ [p.2.next_hop]) (attempts + 1)
        (modify_route_at dest p.1 record_failure router)

/-- The candidate list of `relay_message` (lines 497-509): the stable-sorted
non-expired routes restricted to the viable ones, or — when every route is
circuit-broken — the full sorted list (degraded mode). -/
def relay_candidates (now : ℚ) (router : MeshRouter) (dest : String) :
    List (Nat × RoutePath) :=
  let sorted := sorted_indexed now router dest
  let viable0 := sorted.filter fun p => viable_route p.2
  if viable0.isEmpty then sorted else viable0

/-- `MeshRouter.relay_message` (lines 470-575). Returns the router state,
the (possibly mutated) message, the datagrams sent, and the boolean result.
Steps: TTL check; fetch non-expired routes (fail when none); compute the
candidate list; increment the hop and extend the path trace; cache the
message for ack tracking; walk the candidates; on exhaustion bump
`failed_relays` and drop the cache entry. -/
def relay_message (sendOk : String × Nat → Bool) (now : ℚ) (router : MeshRouter)
    (message : RelayMessage) (max_retries : Nat) :
    MeshRouter × RelayMessage × List Datagram × Bool :=
  if message.max_hops ≤ message.hop_count then (bump_failed router, message, [], false)
  else if (indexed_valid_routes now router message.destination).isEmpty then
    (bump_failed router, message, [], false)
  else
    let message1 := (increment_hop router.node_id message).1
    if (increment_hop router.node_id message).2 = false then
      (bump_failed router, message1, [], false)
    else
      let router1 := {router with
        relay_cache := aset message1.message_id message1 router.relay_cache}
      let res := relay_attempts sendOk now message.destination message1
        (max_retries + 1) (relay_candidates now router message.destination) [] 0 router1
      if res.2.2 then (res.1, message1, res.2.1, true)
      else
        (bump_failed {res.1 with
          relay_cache := aremove message1.message_id res.1.relay_cache},
          message1, res.2.1, false)

/-- Overwrite of the first route with the responding `next_hop`
(`existing[0]` update of `handle_route_response`, lines 393-398): only
`total_hops`, `estimated_rtt_ms` and `last_updated` are overwritten. -/
def update_existing_route (sender_id : String) (route : RoutePath) :
    List RoutePath → List RoutePath
  | [] => []
  | r :: rs =>
    if r.next_hop = sender_id then
      { r with
        total_hops := route.total_hops,
        estimated_rtt_ms := route.estimated_rtt_ms,
        last_updated := route.last_updated } :: rs
    else r :: update_existing_route sender_id route rs

/-- The peer RTT term of `handle_route_response` (line 383):
`self.peering.peers.get(sender_id, {}).rtt_ms or 20`. When the peer exists,
`or` maps both `None` and `0.0` to `20`. When the peer is absent, the
default `{}` (a plain dict) has no `rtt_ms` attribute and the expression
raises `AttributeError`. -/
def peer_rtt_or_20 : Option ℚ → ℚ
  | none => 20
  | some x => if x = 0 then 20 else x

/-- `MeshRouter.handle_route_response` (lines 351-404). The second component
is `some errorMessage` when the call raises (leaving the state of the first
component as it was at the raise point): an unknown `sender_id` raises
`AttributeError` while the `RoutePath` constructor arguments are evaluated,
before the route-table critical section. A response whose `request_id` is
not pending is ignored. Otherwise the route through the responder is built
(`hops + 1`, responder RTT plus the peer RTT) and inserted, or the existing
route via that `next_hop` is overwritten. -/
def handle_route_response (now : ℚ) (router : MeshRouter) (sender_id : String)
    (sender_addr : String × Nat) (request_id : String) (destination : String)
    (hops : Nat) (rtt_ms : ℚ) : MeshRouter × Option String :=
  if (alookup request_id router.pending_requests).isNone then (router, none)
  else
    match alookup sender_id router.peers with
    | none => (router, some "AttributeError")
    | some peerRtt =>
      let route : RoutePath :=
        {target := destination, next_hop := sender_id, next_hop_addr := sender_addr,
          total_hops := hops + 1, estimated_rtt_ms := rtt_ms + peer_rtt_or_20 peerRtt,
          last_updated := now}
      let rs := (alookup destination router.route_table).getD []
      if rs.any fun r => r.next_hop = sender_id then
        ({router with
          route_table := aset destination (update_existing_route sender_id route rs)
            router.route_table}, none)
      else
        ({router with
          route_table := aset destination (rs ++ [route]) router.route_table,
          metrics := {router.metrics with
            routes_discovered := router.metrics.routes_discovered + 1}}, none)

/-- Per-destination pass of `cleanup_expired_routes` (lines 735-753): filter
out expired routes, drop destinations whose lists become empty, count the
removed entries. -/
def cleanup_table (now : ℚ) : List (String × List RoutePath) →
    List (String × List RoutePath) × Nat
  | [] => ([], 0)
  | p :: rest =>
    let kept := p.2.filter fun r => !is_expired now r
    let res := cleanup_table now rest
    (if kept.isEmpty then res.1 else (p.1, kept) :: res.1,
      (p.2.length - kept.length) + res.2)

/-- `MeshRouter.cleanup_expired_routes` (lines 735-753): the periodic
sweeper. It touches only `route_table`; in particular `pending_requests` is
left as it is (no code in the module ever removes a pending request). -/
def cleanup_expired_routes (now : ℚ) (router : MeshRouter) : MeshRouter × Nat :=
  let res := cleanup_table now router.route_table
  ({router with route_table := res.1}, res.2)

/-- An acknowledgement frame as constructed by `_send_relay_ack`
(lines 686-699): `MSG_RELAY_ACK + message_id + 0x00 + success:u8`. -/
structure AckFrame where
  message_id : String
  success : Bool
deriving DecidableEq

/-- `MeshRouter._send_relay_ack` (lines 686-699). The source builds the ack
frame into a local variable and logs, but contains no `_send_to_peer` (or
any other socket) call: the constructed frame is returned as the first
component, and the list of datagrams actually transmitted — the second
component — is empty. The `origin_node_id` parameter is accepted and unused,
as in the source. -/
def send_relay_ack (message_id : String) (origin_node_id : String) (success : Bool) :
    List AckFrame × List Datagram :=
  ([⟨message_id, success⟩], [])

/-- `MeshRouter._handle_message_for_self` (lines 613-623): the command
branch is a TODO no-op in the source; the handler then acks the message
with `success=True`. -/
def handle_message_for_self (message : RelayMessage) : List AckFrame × List Datagram :=
  send_relay_ack message.message_id message.origin_node_id true

/-- `MeshRouter._forward_to_controller` (lines 625-684).
`controller_success` abstracts the outcome of the Controller Client calls
(a non-null heartbeat result, a delivered command result; `false` on an
unknown message type or a raised exception). On success the delivery
counter is bumped and every route whose `next_hop_addr` equals the sending
peer records a success; in all cases the incoming relay is acked with the
outcome. Result: new router, constructed ack frames, transmitted datagrams,
and the success flag. -/
def forward_to_controller (controller_success : Bool) (now : ℚ)
    (router : MeshRouter) (message : RelayMessage) (sender_addr : String × Nat) :
    MeshRouter × List AckFrame × List Datagram × Bool :=
  let router1 :=
    if controller_success then
      {router with
        metrics := {router.metrics with
          successful_deliveries := router.metrics.successful_deliveries + 1},
        route_table := router.route_table.map fun p =>
          (p.1, p.2.map fun r =>
            if r.next_hop_addr = sender_addr then record_success now r else r)}
    else router
  let acks := send_relay_ack message.message_id message.origin_node_id controller_success
  (router1, acks.1, acks.2, controller_success)

/-- `BufferedItem` dataclass of `buffer.py` (lines 24-37). -/
structure BufferedItem where
  item_type : String
  data : List (String × String)
  timestamp : String
  attempt_count : Nat := 0
deriving DecidableEq

/-- State of a `LocalBuffer` (buffer.py lines 40-93); persistence is the
disk mirror of `items` and adds no observable state. -/
structure LocalBuffer where
  max_items : Nat
  items : List BufferedItem := []
deriving DecidableEq

/-- `LocalBuffer._add_item` (buffer.py lines 117-138): build the item with
the current timestamp and a zero attempt count, append it, and drop from
the head whatever exceeds `max_items`. -/
def add_item (b : LocalBuffer) (item_type : String) (data : List (String × String))
    (now : String) : LocalBuffer :=
  let items1 := b.items ++ [⟨item_type, data, now, 0⟩]
  if b.max_items < items1.length then
    {b with items := items1.drop (items1.length - b.max_items)}
  else
    {b with items := items1}

instance routeKeyLe.isTotal : IsTotal RoutePath routeKeyLe := by
  constructor
  intro a b
  rcases Nat.lt_trichotomy a.total_hops b.total_hops with h | h | h
  · exact Or.inl (Or.inl h)
  · rcases lt_trichotomy a.estimated_rtt_ms b.estimated_rtt_ms with h2 | h2 | h2
    · exact Or.inl (Or.inr ⟨h, Or.inl h2⟩)
    · rcases le_total b.reliability a.reliability with h3 | h3
      · exact Or.inl (Or.inr ⟨h, Or.inr ⟨h2, h3⟩⟩)
      · exact Or.inr (Or.inr ⟨h.symm, Or.inr ⟨h2.symm, h3⟩⟩)
    · exact Or.inr (Or.inr ⟨h.symm, Or.inl h2⟩)
  · exact Or.inr (Or.inl h)

instance routeKeyLe.isTrans : IsTrans RoutePath routeKeyLe := by
  constructor
  intro a b c hab hbc
  rcases hab with h1 | ⟨e1, h1⟩
  · rcases hbc with h2 | ⟨e2, _⟩
    · exact Or.inl (h1.trans h2)
    · exact Or.inl (e2 ▸ h1)
  · rcases hbc with h2 | ⟨e2, h2⟩
    · exact Or.inl (lt_of_le_of_lt (le_of_eq e1) h2)
    · rcases h1 with hr1 | ⟨er1, hrel1⟩
      · rcases h2 with hr2 | ⟨er2, _⟩
        · exact Or.inr ⟨e1.trans e2, Or.inl (hr1.trans hr2)⟩
        · exact Or.inr ⟨e1.trans e2, Or.inl (er2 ▸ hr1)⟩
      · rcases h2 with hr2 | ⟨er2, hrel2⟩
        · exact Or.inr ⟨e1.trans e2, Or.inl (lt_of_le_of_lt (le_of_eq er1) hr2)⟩
        · exact Or.inr ⟨e1.trans e2, Or.inr ⟨er1.trans er2, hrel2.trans hrel1⟩⟩

instance routeIdxLe.isTotal : IsTotal (Nat × RoutePath) routeIdxLe :=
  ⟨fun a b => routeKeyLe.isTotal.total a.2 b.2⟩

instance routeIdxLe.isTrans : IsTrans (Nat × RoutePath) routeIdxLe :=
  ⟨fun _ _ _ hab hbc => routeKeyLe.isTrans.trans _ _ _ hab hbc⟩

/-- The 1-hop, 100 ms route of the "fewer hops beats faster RTT" scenario. -/
def route1hop100 : RoutePath :=
  {target := "controller", next_hop := "node-002", next_hop_addr := ("192.168.1.102", 7777),
   total_hops := 1, estimated_rtt_ms := 100, last_updated := 0}

/-- The competing 2-hop, 50 ms route. -/
def route2hop50 : RoutePath :=
  {target := "controller", next_hop := "node-003", next_hop_addr := ("192.168.1.103", 7777),
   total_hops := 2, estimated_rtt_ms := 50, last_updated := 0}

/-- Router holding the two routes above, worse candidate listed first. -/
def rtrHops : MeshRouter :=
  {node_id := "test-node-001", route_table := [("controller", [route2hop50, route1hop100])]}

/-- Equal-hop route with 50 ms RTT (RTT tie-break scenario). -/
def routeRtt50 : RoutePath :=
  {target := "controller", next_hop := "node-002", next_hop_addr := ("192.168.1.102", 7777),
   total_hops := 2, estimated_rtt_ms := 50, last_updated := 0}

/-- Equal-hop route with 150 ms RTT. -/
def routeRtt150 : RoutePath :=
  {target := "controller", next_hop := "node-003", next_hop_addr := ("192.168.1.103", 7777),
   total_hops := 2, estimated_rtt_ms := 150, last_updated := 0}

/-- Router holding the two equal-hop routes, slower one listed first. -/
def rtrRtt : MeshRouter :=
  {node_id := "test-node-001", route_table := [("controller", [routeRtt150, routeRtt50])]}

/-- A route 30 seconds old, well within the hard-coded 60 s expiry. -/
def routeTtl : RoutePath :=
  {target := "controller", next_hop := "node-002", next_hop_addr := ("192.168.1.102", 7777),
   total_hops := 1, estimated_rtt_ms := 50, last_updated := 0}

/-- A router configured with `route_cache_ttl = 10` holding that route. -/
def rtrTtl : MeshRouter :=
  {node_id := "node-001", route_cache_ttl := 10, route_table := [("controller", [routeTtl])]}

/-- A relay message destined for the receiving node `node-B`. -/
def msgSelf : RelayMessage :=
  {message_id := "m-ack-1", msg_type := "heartbeat", origin_node_id := "node-A",
   destination := "node-B", hop_count := 1, max_hops := 5, payload := [],
   path_trace := ["node-A"], timestamp := "t"}

/-- A bare router used by the acknowledgement scenarios. -/
def rtrAck : MeshRouter := {node_id := "node-B"}

/-- One insertion request: `(item_type, data, timestamp)`. -/
def mk_buffered (x : String × List (String × String) × String) : BufferedItem :=
  ⟨x.1, x.2.1, x.2.2, 0⟩

/-- Run a sequence of `_add_item` calls against a buffer. -/
def buffer_inserts (b : LocalBuffer)
    (xs : List (String × List (String × String) × String)) : LocalBuffer :=
  xs.foldl (fun acc x => add_item acc x.1 x.2.1 x.2.2) b

/-- A message already at its hop limit. -/
def msgAtTtl : RelayMessage :=
  {message_id := "m-ttl", msg_type := "heartbeat", origin_node_id := "node-A",
   destination := "controller", hop_count := 5, max_hops := 5, payload := [],
   path_trace := ["node-A"], timestamp := "t"}

/-- A fresh heartbeat message bound for the controller. -/
def msgHeartbeat : RelayMessage :=
  {message_id := "hb-001", msg_type := "heartbeat", origin_node_id := "test-node-001",
   destination := "controller", hop_count := 0, max_hops := 5, payload := [],
   path_trace := ["test-node-001"], timestamp := "t0"}

/-- The degraded-fallback route of the spec seed scenario:
`failure_count = 5`, `reliability = 0.1`. -/
def routeDegraded : RoutePath :=
  {target := "controller", next_hop := "node-005", next_hop_addr := ("192.168.1.105", 7777),
   total_hops := 1, estimated_rtt_ms := 40, last_updated := 0, reliability := 1/10,
   success_count := 0, failure_count := 5}

/-- Router whose only route to the controller is the degraded one. -/
def rtrDegraded : MeshRouter :=
  {node_id := "node-001", route_table := [("controller", [routeDegraded])]}

/-- A fresh heartbeat originating at the degraded router. -/
def msgDegraded : RelayMessage :=
  {message_id := "m-deg", msg_type := "heartbeat", origin_node_id := "node-001",
   destination := "controller", hop_count := 0, max_hops := 5, payload := [],
   path_trace := ["node-001"], timestamp := "t"}

/-- A fresh route with no recorded attempts. -/
def routeFresh : RoutePath :=
  {target := "controller", next_hop := "node-009", next_hop_addr := ("192.168.1.109", 7777),
   total_hops := 1, estimated_rtt_ms := 30, last_updated := 0}

/-- A router with one pending route request and one known peer. -/
def rtrPeerPending : MeshRouter :=
  {node_id := "node-A", peers := [("node-B", some 5)],
   pending_requests := [("req00001", 0)]}

/-- The reliability invariant of a `RoutePath`:
`reliability = success_count / (success_count + failure_count)` when the
denominator is positive, and `1.0` when both counts are zero. -/
def reliability_inv (r : RoutePath) : Prop :=
  (0 < r.success_count + r.failure_count →
    r.reliability = (r.success_count : ℚ) / ((r.success_count : ℚ) + (r.failure_count : ℚ))) ∧
  (r.success_count + r.failure_count = 0 → r.reliability = 1)

/-! ### Theorems -/

theorem routeKeyLe_refl (a : RoutePath) : routeKeyLe a a :=
  Or.inr ⟨rfl, Or.inr ⟨rfl, le_refl _⟩⟩

/-- The head of the stable insertion sort is a member of the list and a
minimum of the sort key. -/
theorem insertionSort_head_min {l : List RoutePath} {r : RoutePath}
    (h : (List.insertionSort routeKeyLe l).head? = some r) :
    r ∈ l ∧ ∀ x ∈ l, routeKeyLe r x := by
  have hs := List.sorted_insertionSort routeKeyLe l
  have hp := List.perm_insertionSort routeKeyLe l
  cases hsort : List.insertionSort routeKeyLe l with
  | nil =>
    rw [hsort] at h
    cases h
  | cons a rest =>
    rw [hsort] at h hs hp
    have har : a = r := by
      simpa using h
    subst har
    constructor
    · exact hp.mem_iff.mp (List.mem_cons_self a rest)
    · intro x hx
      have hx2 : x ∈ a :: rest := hp.mem_iff.mpr hx
      rcases List.mem_cons.mp hx2 with rfl | hx3
      · exact routeKeyLe_refl x
      · exact List.rel_of_sorted_cons hs x hx3

/-- C6: `select_best_route` considers only non-expired routes of the
destination, returns a minimum of the lexicographic key
`(total_hops asc, estimated_rtt_ms asc, reliability desc)` among them, and
on the concrete scenarios picks the 1-hop/100 ms route over the
2-hop/50 ms route and, among equal-hop routes, the 50 ms one. (It is a
pure function of `(now, router, destination)`, hence deterministic.) -/
theorem select_best_route_ordering :
    (∀ now router destination r, select_best_route now router destination = some r →
      ∃ rs, alookup destination router.route_table = some rs ∧ r ∈ rs ∧
        is_expired now r = false ∧
        ∀ x ∈ rs, is_expired now x = false → routeKeyLe r x) ∧
    select_best_route 0 rtrHops "controller" = some route1hop100 ∧
    select_best_route 0 rtrRtt "controller" = some routeRtt50 := by
  refine ⟨?_, ?_, ?_⟩
  · intro now router destination r h
    unfold select_best_route at h
    cases hlk : alookup destination router.route_table with
    | none => rw [hlk] at h; cases h
    | some rs =>
      rw [hlk] at h
      obtain ⟨hmem, hmin⟩ := insertionSort_head_min h
      refine ⟨rs, rfl, (List.mem_filter.mp hmem).1, ?_, ?_⟩
      · have := (List.mem_filter.mp hmem).2
        simpa using this
      · intro x hx hxe
        exact hmin x (List.mem_filter.mpr ⟨hx, by simp [hxe]⟩)
  · norm_num [select_best_route, rtrHops, alookup, is_expired, route1hop100, route2hop50,
      List.insertionSort, List.orderedInsert, routeKeyLe]
  · norm_num [select_best_route, rtrRtt, alookup, is_expired, routeRtt50, routeRtt150,
      List.insertionSort, List.orderedInsert, routeKeyLe]

/-- Witness for C6: instantiating the ordering theorem on the concrete
two-route table shows the chosen 1-hop route is key-below the 2-hop one. -/
theorem select_best_route_ordering_witness : routeKeyLe route1hop100 route2hop50 := by
  obtain ⟨rs, hrs, _, _, hmin⟩ :=
    select_best_route_ordering.1 0 rtrHops "controller" route1hop100
      select_best_route_ordering.2.1
  have hrs2 : rs = [route2hop50, route1hop100] := by
    have := hrs
    norm_num [rtrHops, alookup] at this
    exact this.symm
  subst hrs2
  exact hmin route2hop50 (by simp) (by norm_num [is_expired, route2hop50])

/-- C1: with `route_cache_ttl` configured to 10 s, a route whose age is 30 s
(beyond the configured TTL) is still not expired for the code — both
`select_best_route` and `has_route_to` return it, because
`RoutePath.is_expired` compares against a hard-coded 60 s and never reads
`route_cache_ttl`, contradicting the router docstring ("route_cache_ttl:
Seconds before routes expire"). -/
theorem route_expiry_ignores_configured_ttl :
    (30 : ℚ) - routeTtl.last_updated > rtrTtl.route_cache_ttl ∧
    is_expired 30 routeTtl = false ∧
    select_best_route 30 rtrTtl "controller" = some routeTtl ∧
    has_route_to 30 rtrTtl "controller" = true := by
  refine ⟨by norm_num [routeTtl, rtrTtl], by norm_num [is_expired, routeTtl], ?_, ?_⟩
  · norm_num [select_best_route, rtrTtl, alookup, is_expired, routeTtl,
      List.insertionSort, List.orderedInsert]
  · norm_num [has_route_to, rtrTtl, alookup, is_expired, routeTtl]

/-- Counterexample to C2: handling a message for self, and terminally
forwarding with a failed controller delivery, each transmit zero datagrams —
no `RELAY_ACK` is ever put on the wire (the frame is only built and
logged). -/
theorem relay_ack_not_transmitted_cex :
    (handle_message_for_self msgSelf).2 = ([] : List Datagram) ∧
    (forward_to_controller false 0 rtrAck msgSelf ("10.0.0.1", 7777)).2.2.1 =
      ([] : List Datagram) :=
  ⟨rfl, rfl⟩

/-- C2 (amended): the handler for a message destined to this node constructs
a `RELAY_ACK` frame carrying the message id and `success=true`, and terminal
forwarding constructs one carrying the actual controller outcome (in
particular `success=false` on delivery failure) — but in both cases the
frame is only built and logged; no datagram is transmitted. -/
theorem relay_ack_constructed_not_sent :
    (∀ m : RelayMessage, handle_message_for_self m = ([⟨m.message_id, true⟩], [])) ∧
    (∀ b now router m addr, (forward_to_controller b now router m addr).2 =
      ([⟨m.message_id, b⟩], [], b)) :=
  ⟨fun _ => rfl, fun _ _ _ _ _ => rfl⟩

theorem add_item_items (b : LocalBuffer) (t : String) (d : List (String × String))
    (ts : String) :
    (add_item b t d ts).items =
      (if b.max_items < b.items.length + 1 then
        (b.items ++ [BufferedItem.mk t d ts 0]).drop (b.items.length + 1 - b.max_items)
      else b.items ++ [BufferedItem.mk t d ts 0]) ∧
    (add_item b t d ts).max_items = b.max_items := by
  unfold add_item
  simp only [List.length_append, List.length_singleton]
  split <;> simp

theorem buffer_inserts_spec (xs : List (String × List (String × String) × String)) :
    ∀ b : LocalBuffer, b.items.length ≤ b.max_items →
      (buffer_inserts b xs).max_items = b.max_items ∧
      (buffer_inserts b xs).items =
        (b.items ++ xs.map mk_buffered).drop (b.items.length + xs.length - b.max_items) := by
  induction xs with
  | nil =>
    intro b hb
    refine ⟨rfl, ?_⟩
    have h0 : b.items.length - b.max_items = 0 := by omega
    simp [buffer_inserts, h0]
  | cons x xs ih =>
    intro b hb
    have hstep : buffer_inserts b (x :: xs) = buffer_inserts (add_item b x.1 x.2.1 x.2.2) xs :=
      rfl
    obtain ⟨hitems, hmax⟩ := add_item_items b x.1 x.2.1 x.2.2
    by_cases hcap : b.max_items < b.items.length + 1
    · have hlen : b.items.length = b.max_items := by omega
      have hitems2 : (add_item b x.1 x.2.1 x.2.2).items =
          (b.items ++ [mk_buffered x]).drop 1 := by
        rw [hitems, if_pos hcap]
        have : b.items.length + 1 - b.max_items = 1 := by omega
        rw [this]
        rfl
      have hlen2 : (add_item b x.1 x.2.1 x.2.2).items.length ≤
          (add_item b x.1 x.2.1 x.2.2).max_items := by
        rw [hitems2, hmax, List.length_drop, List.length_append, List.length_singleton]
        omega
      obtain ⟨ihmax, ihitems⟩ := ih (add_item b x.1 x.2.1 x.2.2) hlen2
      refine ⟨by rw [hstep, ihmax, hmax], ?_⟩
      rw [hstep, ihitems, hmax, hitems2]
      have hdroplen : ((b.items ++ [mk_buffered x]).drop 1).length = b.max_items := by
        rw [List.length_drop, List.length_append, List.length_singleton]
        omega
      rw [hdroplen]
      have hassoc : b.items ++ mk_buffered x :: xs.map mk_buffered =
          (b.items ++ [mk_buffered x]) ++ xs.map mk_buffered := by simp
      have hle : 1 ≤ (b.items ++ [mk_buffered x]).length := by
        rw [List.length_append, List.length_singleton]
        omega
      have happ : (b.items ++ [mk_buffered x]).drop 1 ++ xs.map mk_buffered =
          (b.items ++ mk_buffered x :: xs.map mk_buffered).drop 1 := by
        conv_rhs => rw [hassoc, List.drop_append_of_le_length hle]
      rw [happ, List.drop_drop]
      have hidx : 1 + (b.max_items + xs.length - b.max_items) =
          b.items.length + (xs.length + 1) - b.max_items := by omega
      simp only [List.map_cons, List.length_cons]
      rw [hidx]
    · have hitems2 : (add_item b x.1 x.2.1 x.2.2).items = b.items ++ [mk_buffered x] := by
        rw [hitems, if_neg hcap]
        rfl
      have hlen2 : (add_item b x.1 x.2.1 x.2.2).items.length ≤
          (add_item b x.1 x.2.1 x.2.2).max_items := by
        rw [hitems2, hmax, List.length_append, List.length_singleton]
        omega
      obtain ⟨ihmax, ihitems⟩ := ih (add_item b x.1 x.2.1 x.2.2) hlen2
      refine ⟨by rw [hstep, ihmax, hmax], ?_⟩
      rw [hstep, ihitems, hmax, hitems2]
      have happ : (b.items ++ [mk_buffered x]) ++ xs.map mk_buffered =
          b.items ++ mk_buffered x :: xs.map mk_buffered := by
        simp
      rw [happ]
      have hidx : (b.items ++ [mk_buffered x]).length + xs.length - b.max_items =
          b.items.length + (xs.length + 1) - b.max_items := by
        rw [List.length_append, List.length_singleton]
        omega
      rw [hidx]
      simp only [List.map_cons, List.length_cons]

/-- C9: starting from an empty buffer with `max_items = N`, after any
sequence of at least `N` insertions the buffer holds exactly `N` items:
the most recent ones in insertion order, with the oldest surplus dropped
from the head. -/
theorem buffer_cap_fifo (N : Nat) (xs : List (String × List (String × String) × String))
    (h : N ≤ xs.length) :
    (buffer_inserts ⟨N, []⟩ xs).items.length = N ∧
    (buffer_inserts ⟨N, []⟩ xs).items = (xs.map mk_buffered).drop (xs.length - N) := by
  obtain ⟨_, hitems⟩ := buffer_inserts_spec xs ⟨N, []⟩ (by simp)
  simp only [List.nil_append, List.length_nil, Nat.zero_add] at hitems
  refine ⟨?_, hitems⟩
  rw [hitems, List.length_drop, List.length_map]
  omega

/-- Witness for C9: a 2-slot buffer receiving three telemetry items keeps
exactly the last two, in order. -/
theorem buffer_cap_fifo_witness :
    (buffer_inserts ⟨2, []⟩
      [("telemetry", [], "t1"), ("telemetry", [], "t2"), ("telemetry", [], "t3")]).items =
      [⟨"telemetry", [], "t2", 0⟩, ⟨"telemetry", [], "t3", 0⟩] := by
  have h := (buffer_cap_fifo 2
    [("telemetry", [], "t1"), ("telemetry", [], "t2"), ("telemetry", [], "t3")]
    (by decide)).2
  rw [h]
  decide

/-- Every datagram emitted by the retry walk is addressed to the
`next_hop_addr` of a route in its candidate list. -/
theorem relay_attempts_sent_mem (sendOk : String × Nat → Bool) (now : ℚ) (dest : String)
    (message : RelayMessage) (maxA : Nat) :
    ∀ (l : List (Nat × RoutePath)) (tried : List String) (att : Nat) (router : MeshRouter)
      (d : Datagram),
      d ∈ (relay_attempts sendOk now dest message maxA l tried att router).2.1 →
      d.addr ∈ l.map fun p => p.2.next_hop_addr := by
  intro l
  induction l with
  | nil =>
    intro tried att router d hd
    simp [relay_attempts] at hd
  | cons p rest ih =>
    intro tried att router d hd
    rw [relay_attempts] at hd
    split at hd
    · simp at hd
    · split at hd
      · exact List.mem_cons_of_mem _ (ih _ _ _ d hd)
      · split at hd
        · simp only [List.mem_singleton] at hd
          subst hd
          exact List.mem_cons_self _ _
        · exact List.mem_cons_of_mem _ (ih _ _ _ d hd)

/-- On a successful relay the returned message is exactly the hop-incremented
input message. -/
theorem relay_message_success_message (sendOk : String × Nat → Bool) (now : ℚ)
    (router : MeshRouter) (message : RelayMessage) (mr : Nat)
    (out : MeshRouter × RelayMessage × List Datagram × Bool)
    (h : relay_message sendOk now router message mr = out) (hs : out.2.2.2 = true) :
    out.2.1 = (increment_hop router.node_id message).1 := by
  unfold relay_message at h
  split at h
  · subst h; simp at hs
  · split at h
    · subst h; simp at hs
    · dsimp only at h
      split at h
      · subst h; simp at hs
      · split at h
        · subst h; rfl
        · subst h; simp at hs

/-- Every datagram `relay_message` emits goes to the address of a candidate
route (a viable one, or a sorted one in degraded mode). -/
theorem relay_message_sent_mem (sendOk : String × Nat → Bool) (now : ℚ)
    (router : MeshRouter) (message : RelayMessage) (mr : Nat) (d : Datagram)
    (hd : d ∈ (relay_message sendOk now router message mr).2.2.1) :
    d.addr ∈ ((relay_candidates now router message.destination).map
      fun p => p.2.next_hop_addr) := by
  have h : relay_message sendOk now router message mr =
      relay_message sendOk now router message mr := rfl
  revert hd
  generalize hout : relay_message sendOk now router message mr = out
  intro hd
  unfold relay_message at hout
  split at hout
  · subst hout; simp at hd
  · split at hout
    · subst hout; simp at hd
    · dsimp only at hout
      split at hout
      · subst hout; simp at hd
      · split at hout
        · subst hout
          exact relay_attempts_sent_mem sendOk now message.destination _ (mr + 1) _ [] 0 _ d hd
        · subst hout
          exact relay_attempts_sent_mem sendOk now message.destination _ (mr + 1) _ [] 0 _ d hd

/-- C4: a message whose `hop_count` has reached `max_hops` is refused:
`relay_message` returns false having only bumped `failed_relays` — the
message, the route table and the relay cache are untouched and no datagram
is sent. -/
theorem relay_ttl_enforcement :
    ∀ (sendOk : String × Nat → Bool) (now : ℚ) (router : MeshRouter)
      (message : RelayMessage) (max_retries : Nat),
      message.max_hops ≤ message.hop_count →
      relay_message sendOk now router message max_retries =
        (bump_failed router, message, [], false) ∧
      (bump_failed router).route_table = router.route_table ∧
      (bump_failed router).relay_cache = router.relay_cache ∧
      (bump_failed router).pending_requests = router.pending_requests ∧
      (bump_failed router).metrics.failed_relays = router.metrics.failed_relays + 1 := by
  intro sendOk now router message mr h
  refine ⟨?_, rfl, rfl, rfl, rfl⟩
  unfold relay_message
  rw [if_pos h]

/-- Witness for C4: the TTL-exceeded scenario evaluated on a concrete router
and message. -/
theorem relay_ttl_enforcement_witness :
    relay_message (fun _ => true) 0 rtrAck msgAtTtl 2 =
      (bump_failed rtrAck, msgAtTtl, [], false) :=
  (relay_ttl_enforcement (fun _ => true) 0 rtrAck msgAtTtl 2 (by decide)).1

/-- C7: `increment_hop` adds exactly one to `hop_count` and appends the node
to `path_trace` unconditionally, returning true exactly when the new count
is within `max_hops`; consequently a successful `relay_message` returns the
message with `hop_count` increased by one and this node appended to its
trace. -/
theorem increment_hop_relay_monotonicity :
    (∀ (node_id : String) (m : RelayMessage),
      (increment_hop node_id m).1.hop_count = m.hop_count + 1 ∧
      (increment_hop node_id m).1.path_trace = m.path_trace ++ [node_id] ∧
      (increment_hop node_id m).1.max_hops = m.max_hops ∧
      ((increment_hop node_id m).2 = true ↔ m.hop_count + 1 ≤ m.max_hops)) ∧
    (∀ (sendOk : String × Nat → Bool) (now : ℚ) (router : MeshRouter)
      (message : RelayMessage) (max_retries : Nat),
      (relay_message sendOk now router message max_retries).2.2.2 = true →
      (relay_message sendOk now router message max_retries).2.1.hop_count =
        message.hop_count + 1 ∧
      (relay_message sendOk now router message max_retries).2.1.path_trace =
        message.path_trace ++ [router.node_id]) := by
  constructor
  · intro node_id m
    refine ⟨rfl, rfl, rfl, ?_⟩
    simp [increment_hop]
  · intro sendOk now router message mr hs
    have hmsg := relay_message_success_message sendOk now router message mr _ rfl hs
    rw [hmsg]
    exact ⟨rfl, rfl⟩

/-- Witness for C7: a concrete successful relay increments the hop count of
the heartbeat from 0 to 1. -/
theorem increment_hop_relay_monotonicity_witness :
    (relay_message (fun _ => true) 0 rtrHops msgHeartbeat 2).2.1.hop_count =
      msgHeartbeat.hop_count + 1 :=
  (increment_hop_relay_monotonicity.2 (fun _ => true) 0 rtrHops msgHeartbeat 2
    (by norm_num [relay_message, relay_attempts, relay_candidates, rtrHops, route1hop100,
      route2hop50, msgHeartbeat, alookup, is_expired, indexed_valid_routes, sorted_indexed,
      List.insertionSort, List.orderedInsert, routeIdxLe, routeKeyLe, viable_route,
      increment_hop, aset, List.enum, modify_route_at, amap, modifyNthRoute, record_success,
      update_reliability, update_avg_hop_count, bump_failed])).1

/-- Counterexample to C5: a route that has accumulated five failures (each
recorded by the relay loop) is non-viable, and recording a success does NOT
restore its viability — its reliability becomes 1/6 < 0.2 with
`failure_count = 5 ≥ 3`. -/
theorem success_not_restore_viability_cex :
    viable_route routeFresh = true ∧
    viable_route (record_failure (record_failure (record_failure (record_failure
      (record_failure routeFresh))))) = false ∧
    viable_route (record_success 100 (record_failure (record_failure (record_failure
      (record_failure (record_failure routeFresh)))))) = false := by
  refine ⟨?_, ?_, ?_⟩ <;>
    norm_num [viable_route, routeFresh, record_failure, record_success, update_reliability]

/-- C5 (amended): `relay_message` draws every attempted peer from the viable
candidate list when one exists (so a circuit-broken route is skipped while a
viable alternate exists), always from the sorted non-expired list (the
degraded fallback), walks candidates in `(hops, rtt, -reliability)` order,
and a recorded success restores viability exactly when the accumulated
counts satisfy `failure_count ≤ 4 * success_count + 4` — recovery holds
after three consecutive fresh failures but not, e.g., after five. The
concrete degraded scenario still relays through its only, non-viable
route. -/
theorem relay_circuit_breaker :
    (∀ (sendOk : String × Nat → Bool) (now : ℚ) (router : MeshRouter)
      (message : RelayMessage) (mr : Nat) (d : Datagram),
      d ∈ (relay_message sendOk now router message mr).2.2.1 →
      ((sorted_indexed now router message.destination).filter
        fun p => viable_route p.2) ≠ [] →
      d.addr ∈ (((sorted_indexed now router message.destination).filter
        fun p => viable_route p.2).map fun p => p.2.next_hop_addr)) ∧
    (∀ (sendOk : String × Nat → Bool) (now : ℚ) (router : MeshRouter)
      (message : RelayMessage) (mr : Nat) (d : Datagram),
      d ∈ (relay_message sendOk now router message mr).2.2.1 →
      d.addr ∈ ((sorted_indexed now router message.destination).map
        fun p => p.2.next_hop_addr)) ∧
    (∀ (now : ℚ) (router : MeshRouter) (dest : String),
      List.Sorted routeIdxLe (relay_candidates now router dest)) ∧
    (∀ (now : ℚ) (r : RoutePath), viable_route (record_success now r) = true ↔
      r.failure_count ≤ 4 * r.success_count + 4) ∧
    ((relay_message (fun _ => true) 0 rtrDegraded msgDegraded 2).2.2.2 = true ∧
      ((relay_message (fun _ => true) 0 rtrDegraded msgDegraded 2).2.2.1.map
        fun d => d.addr) = [("192.168.1.105", 7777)]) := by
  refine ⟨?_, ?_, ?_, ?_, ?_⟩
  · intro sendOk now router message mr d hd hne
    have hmem := relay_message_sent_mem sendOk now router message mr d hd
    unfold relay_candidates at hmem
    rw [if_neg (by simpa [List.isEmpty_iff] using hne)] at hmem
    exact hmem
  · intro sendOk now router message mr d hd
    have hmem := relay_message_sent_mem sendOk now router message mr d hd
    unfold relay_candidates at hmem
    dsimp only at hmem
    split at hmem
    · exact hmem
    · obtain ⟨p, hp, hpe⟩ := List.mem_map.mp hmem
      exact List.mem_map.mpr ⟨p, (List.mem_filter.mp hp).1, hpe⟩
  · intro now router dest
    unfold relay_candidates
    have hs : List.Sorted routeIdxLe (sorted_indexed now router dest) :=
      List.sorted_insertionSort routeIdxLe _
    dsimp only
    split
    · exact hs
    · exact hs.sublist (List.filter_sublist _)
  · intro now r
    unfold viable_route record_success update_reliability
    rw [if_pos (by omega : 0 < r.success_count + 1 + r.failure_count)]
    simp only [Bool.or_eq_true, decide_eq_true_eq]
    have hpos : (0 : ℚ) < ((r.success_count + 1 : Nat) : ℚ) + (r.failure_count : ℚ) := by
      positivity
    constructor
    · rintro (h | h)
      · rw [div_le_div_iff (by norm_num) hpos] at h
        push_cast at h
        have hq : (r.failure_count : ℚ) ≤ 4 * (r.success_count : ℚ) + 4 := by linarith
        exact_mod_cast hq
      · omega
    · intro h
      left
      rw [div_le_div_iff (by norm_num) hpos]
      push_cast
      have hq : (r.failure_count : ℚ) ≤ 4 * (r.success_count : ℚ) + 4 := by exact_mod_cast h
      linarith
  · constructor <;>
      norm_num [relay_message, relay_attempts, relay_candidates, rtrDegraded, routeDegraded,
        msgDegraded, alookup, is_expired, indexed_valid_routes, sorted_indexed,
        List.insertionSort, List.orderedInsert, routeIdxLe, routeKeyLe, viable_route,
        increment_hop, aset, List.enum, modify_route_at, amap, modifyNthRoute,
        record_success, update_reliability, update_avg_hop_count, bump_failed]

/-- Witness for C5: on the two-route table the relayed datagram goes to a
member of the viable candidate set. -/
theorem relay_circuit_breaker_witness :
    (("192.168.1.102", 7777) : String × Nat) ∈
      (((sorted_indexed 0 rtrHops "controller").filter
        fun p => viable_route p.2).map fun p => p.2.next_hop_addr) := by
  have h := relay_circuit_breaker.1 (fun _ => true) 0 rtrHops msgHeartbeat 2
    ⟨("192.168.1.102", 7777), .relayData (increment_hop "test-node-001" msgHeartbeat).1⟩
    (by norm_num [relay_message, relay_attempts, relay_candidates, rtrHops, route1hop100,
      route2hop50, msgHeartbeat, alookup, is_expired, indexed_valid_routes, sorted_indexed,
      List.insertionSort, List.orderedInsert, routeIdxLe, routeKeyLe, viable_route,
      increment_hop, aset, List.enum, modify_route_at, amap, modifyNthRoute, record_success,
      update_reliability, update_avg_hop_count, bump_failed, List.isEmpty])
    (by
      norm_num [sorted_indexed, indexed_valid_routes, rtrHops, route1hop100, route2hop50,
        alookup, is_expired, List.insertionSort, List.orderedInsert, routeIdxLe, routeKeyLe,
        viable_route, List.enum]
      exact List.cons_ne_nil _ _)
  exact h

/-- Looking up through a dict assignment: the assigned key sees the new
value, other keys are unaffected. -/
theorem alookup_aset {β : Type} (k d : String) (v : β) :
    ∀ t : List (String × β), alookup d (aset k v t) = if k = d then some v else alookup d t := by
  intro t
  induction t with
  | nil => by_cases h : k = d <;> simp [aset, alookup, h]
  | cons p rest ih =>
    by_cases h : p.1 = k
    · by_cases hkd : k = d <;> simp [aset, alookup, h, hkd]
    · by_cases h2 : p.1 = d
      · have hkd : ¬k = d := fun hkd => h (h2.trans hkd.symm)
        have hdk : ¬d = k := fun hdk => hkd hdk.symm
        simp [aset, alookup, h, h2, hkd, hdk]
      · simp [aset, alookup, h, h2, ih]

/-- The update of an existing route keeps a route through the responding
`next_hop` in the list. -/
theorem update_existing_route_mem (sender_id : String) (route : RoutePath) :
    ∀ rs : List RoutePath, (rs.any fun r => r.next_hop = sender_id) = true →
      ∃ r ∈ update_existing_route sender_id route rs, r.next_hop = sender_id := by
  intro rs
  induction rs with
  | nil => intro h; simp at h
  | cons r rest ih =>
    intro h
    by_cases hr : r.next_hop = sender_id
    · refine ⟨{ r with
          total_hops := route.total_hops,
          estimated_rtt_ms := route.estimated_rtt_ms,
          last_updated := route.last_updated }, ?_, ?_⟩
      · unfold update_existing_route
        rw [if_pos hr]
        exact List.mem_cons_self _ _
      · exact hr
    · have h2 : (rest.any fun x => x.next_hop = sender_id) = true := by
        simpa [List.any_cons, hr] using h
      obtain ⟨x, hx, hxs⟩ := ih h2
      refine ⟨x, ?_, hxs⟩
      unfold update_existing_route
      rw [if_neg hr]
      exact List.mem_cons_of_mem _ hx

/-- C10: a `ROUTE_RESPONSE` whose `request_id` is pending but whose
`sender_id` is absent from the peer table raises (`dict.get(sender_id, {})`
yields a plain dict without an `rtt_ms` attribute) while the route is being
built, before the route-table update: the call returns the error and the
route table is exactly the one from before the call. -/
theorem route_response_unknown_sender_raises :
    ∀ (now : ℚ) (router : MeshRouter) (sender_id : String) (sender_addr : String × Nat)
      (request_id destination : String) (hops : Nat) (rtt_ms : ℚ),
      (alookup request_id router.pending_requests).isSome = true →
      alookup sender_id router.peers = none →
      handle_route_response now router sender_id sender_addr request_id destination hops
        rtt_ms = (router, some "AttributeError") ∧
      (handle_route_response now router sender_id sender_addr request_id destination hops
        rtt_ms).1.route_table = router.route_table := by
  intro now router sender_id sender_addr request_id destination hops rtt_ms hreq hpeer
  have hne : (alookup request_id router.pending_requests).isNone = false := by
    cases hl : alookup request_id router.pending_requests with
    | none => rw [hl] at hreq; simp at hreq
    | some v => simp
  have heq : handle_route_response now router sender_id sender_addr request_id destination
      hops rtt_ms = (router, some "AttributeError") := by
    unfold handle_route_response
    rw [if_neg (by simp [hne]), hpeer]
  exact ⟨heq, by rw [heq]⟩

/-- Witness for C10: a response from the unknown `ghost-node` raises and
leaves the route table empty. -/
theorem route_response_unknown_sender_raises_witness :
    handle_route_response 5 rtrPeerPending "ghost-node" ("10.0.0.9", 7777) "req00001"
      "controller" 1 50 = (rtrPeerPending, some "AttributeError") :=
  (route_response_unknown_sender_raises 5 rtrPeerPending "ghost-node" ("10.0.0.9", 7777)
    "req00001" "controller" 1 50 (by decide) (by decide)).1

/-- Counterexample to C3: the sweeper leaves a 20-second-old pending request
in place, and the stale `ROUTE_RESPONSE` for it is still accepted — a route
is inserted into the table. -/
theorem stale_pending_request_accepted_cex :
    (20 : ℚ) - 0 > 10 ∧
    (cleanup_expired_routes 20 rtrPeerPending).1.pending_requests = [("req00001", 0)] ∧
    (alookup "controller" (handle_route_response 20 (cleanup_expired_routes 20
      rtrPeerPending).1 "node-B" ("192.168.1.102", 7777) "req00001" "controller" 0
      50).1.route_table).isSome = true := by
  refine ⟨by norm_num, rfl, ?_⟩
  norm_num [handle_route_response, cleanup_expired_routes, cleanup_table, rtrPeerPending,
    alookup, aset, peer_rtt_or_20]

/-- C3 (amended): the periodic sweeper `cleanup_expired_routes` never
touches `pending_requests` (no code in the module removes a pending
request), so a `ROUTE_RESPONSE` whose `request_id` matches any pending
entry — however old — is accepted whenever the sender is a known peer, and
a route through that sender is inserted or refreshed. -/
theorem pending_requests_never_pruned :
    (∀ (now : ℚ) (router : MeshRouter),
      (cleanup_expired_routes now router).1.pending_requests = router.pending_requests) ∧
    (∀ (now : ℚ) (router : MeshRouter) (sender_id : String) (sender_addr : String × Nat)
      (request_id destination : String) (hops : Nat) (rtt_ms : ℚ) (rttq : Option ℚ),
      (alookup request_id router.pending_requests).isSome = true →
      alookup sender_id router.peers = some rttq →
      ∃ rs, alookup destination
          (handle_route_response now router sender_id sender_addr request_id destination
            hops rtt_ms).1.route_table = some rs ∧
        ∃ r ∈ rs, r.next_hop = sender_id) := by
  constructor
  · intro now router
    rfl
  · intro now router sender_id sender_addr request_id destination hops rtt_ms rttq hreq hpeer
    have hne : (alookup request_id router.pending_requests).isNone = false := by
      cases hl : alookup request_id router.pending_requests with
      | none => rw [hl] at hreq; simp at hreq
      | some v => simp
    unfold handle_route_response
    rw [if_neg (by simp [hne]), hpeer]
    dsimp only
    split
    · rename_i hany
      refine ⟨update_existing_route sender_id
        {target := destination, next_hop := sender_id, next_hop_addr := sender_addr,
          total_hops := hops + 1, estimated_rtt_ms := rtt_ms + peer_rtt_or_20 rttq,
          last_updated := now}
        ((alookup destination router.route_table).getD []), ?_, ?_⟩
      · rw [alookup_aset, if_pos rfl]
      · exact update_existing_route_mem sender_id _ _ hany
    · refine ⟨((alookup destination router.route_table).getD []) ++
        [{target := destination, next_hop := sender_id, next_hop_addr := sender_addr,
          total_hops := hops + 1, estimated_rtt_ms := rtt_ms + peer_rtt_or_20 rttq,
          last_updated := now}], ?_, ?_⟩
      · rw [alookup_aset, if_pos rfl]
      · exact ⟨_, List.mem_append_right _ (List.mem_singleton_self _), rfl⟩

/-- Witness for C3: on the concrete router the sweep preserves the pending
entry and the late response inserts a route via `node-B`. -/
theorem pending_requests_never_pruned_witness :
    ∃ rs, alookup "controller" (handle_route_response 20 rtrPeerPending "node-B"
        ("192.168.1.102", 7777) "req00001" "controller" 0 50).1.route_table = some rs ∧
      ∃ r ∈ rs, r.next_hop = "node-B" :=
  pending_requests_never_pruned.2 20 rtrPeerPending "node-B" ("192.168.1.102", 7777)
    "req00001" "controller" 0 50 (some 5) (by decide) (by decide)

/-- Updating an existing route leaves every element of the list satisfying
the reliability invariant (only hops, RTT and freshness are overwritten). -/
theorem update_existing_route_inv (sender_id : String) (route : RoutePath) :
    ∀ rs : List RoutePath, (∀ r ∈ rs, reliability_inv r) →
      ∀ r ∈ update_existing_route sender_id route rs, reliability_inv r := by
  intro rs
  induction rs with
  | nil => intro _ r hr; simp [update_existing_route] at hr
  | cons x rest ih =>
    intro hall r hr
    unfold update_existing_route at hr
    by_cases hx : x.next_hop = sender_id
    · rw [if_pos hx] at hr
      rcases List.mem_cons.mp hr with rfl | hr2
      · exact hall x (List.mem_cons_self _ _)
      · exact hall r (List.mem_cons_of_mem _ hr2)
    · rw [if_neg hx] at hr
      rcases List.mem_cons.mp hr with rfl | hr2
      · exact hall r (List.mem_cons_self _ _)
      · exact ih (fun y hy => hall y (List.mem_cons_of_mem _ hy)) r hr2

/-- C8: the reliability invariant holds unconditionally after
`record_success` and `record_failure`, and the insert-or-update done by
`handle_route_response` preserves it across the whole route table (a fresh
route starts at counts zero and reliability 1; an update leaves counts and
reliability alone). -/
theorem reliability_invariant_preserved :
    (∀ (now : ℚ) (r : RoutePath), reliability_inv (record_success now r)) ∧
    (∀ r : RoutePath, reliability_inv (record_failure r)) ∧
    (∀ (now : ℚ) (router : MeshRouter) (sender_id : String) (sender_addr : String × Nat)
      (request_id destination : String) (hops : Nat) (rtt_ms : ℚ),
      (∀ d rs, alookup d router.route_table = some rs → ∀ r ∈ rs, reliability_inv r) →
      ∀ d rs, alookup d (handle_route_response now router sender_id sender_addr request_id
          destination hops rtt_ms).1.route_table = some rs →
        ∀ r ∈ rs, reliability_inv r) := by
  refine ⟨?_, ?_, ?_⟩
  · intro now r
    unfold record_success update_reliability
    dsimp only
    split
    · exact ⟨fun _ => rfl, fun h => absurd h (by dsimp only; omega)⟩
    · rename_i hc
      exact absurd (by omega : 0 < r.success_count + 1 + r.failure_count) hc
  · intro r
    unfold record_failure update_reliability
    dsimp only
    split
    · exact ⟨fun _ => rfl, fun h => absurd h (by dsimp only; omega)⟩
    · rename_i hc
      exact absurd (by omega : 0 < r.success_count + (r.failure_count + 1)) hc
  · intro now router sender_id sender_addr request_id destination hops rtt_ms hinv
    unfold handle_route_response
    by_cases hpend : (alookup request_id router.pending_requests).isNone = true
    · rw [if_pos hpend]
      exact hinv
    · rw [if_neg hpend]
      cases hpeer : alookup sender_id router.peers with
      | none =>
        exact hinv
      | some q =>
        dsimp only
        have hbase : ∀ r ∈ (alookup destination router.route_table).getD [],
            reliability_inv r := by
          cases hlk : alookup destination router.route_table with
          | none => simp
          | some l => exact hinv destination l hlk
        split
        · intro d rs hlk r hr
          rw [alookup_aset] at hlk
          by_cases hd : destination = d
          · rw [if_pos hd] at hlk
            cases hlk
            exact update_existing_route_inv sender_id _ _ hbase r hr
          · rw [if_neg hd] at hlk
            exact hinv d rs hlk r hr
        · intro d rs hlk r hr
          rw [alookup_aset] at hlk
          by_cases hd : destination = d
          · rw [if_pos hd] at hlk
            cases hlk
            rcases List.mem_append.mp hr with hr2 | hr2
            · exact hbase r hr2
            · rw [List.mem_singleton.mp hr2]
              exact ⟨fun h => absurd h (by dsimp only; omega), fun _ => rfl⟩
          · rw [if_neg hd] at hlk
            exact hinv d rs hlk r hr

/-- Witness for C8: the route inserted by a concrete `ROUTE_RESPONSE`
(55 ms estimate: 50 from the responder plus the 5 ms peer RTT) satisfies
the invariant. -/
theorem reliability_invariant_preserved_witness :
    reliability_inv
      {target := "controller", next_hop := "node-B", next_hop_addr := ("192.168.1.102", 7777),
       total_hops := 1, estimated_rtt_ms := 55, last_updated := 20} :=
  reliability_invariant_preserved.2.2 20 rtrPeerPending "node-B" ("192.168.1.102", 7777)
    "req00001" "controller" 0 50
    (by intro d rs h; simp [rtrPeerPending, alookup] at h)
    "controller"
    [{target := "controller", next_hop := "node-B", next_hop_addr := ("192.168.1.102", 7777),
      total_hops := 1, estimated_rtt_ms := 55, last_updated := 20}]
    (by norm_num [handle_route_response, rtrPeerPending, alookup, aset, peer_rtt_or_20])
    _ (List.mem_singleton_self _)

end TacticalMesh
